import Mathlib

/-!
Verification of the LexAI legal-document service (smt2208/LexAI).

Shallow embedding of the core components:
  * `app/models.py`        -- response data model (pydantic models)
  * `app/core/validator.py` -- `ContentValidator.is_legal_document`
  * `app/core/analyzer.py`  -- `DocumentAnalyzer.analyze`
  * `app/core/workflow.py`  -- `DocumentWorkflow` (one-shot state machine)
  * `app/core/rag_workflow.py` -- `RAGWorkflow` (session state machine) and its store
  * `main.py`               -- the `/chat` endpoint logic

External effects (the Gemini reasoning service, OpenAI embeddings, FAISS,
file extraction) are modelled as oracle values describing the outcome of
each external call: a successful structured result, a null result, a
timeout, or a raised exception.  Every `try/except` in the Python source
becomes a `match` on such an oracle, so the Lean functions are total
exactly because the Python code catches at those points.
-/

namespace LexAI

/-- `Decision` mirrors `Literal["accept", "reject"]` from `app/models.py`. -/
inductive Decision where
  | accept
  | reject
deriving DecidableEq, Repr

/-- `ValidatorResponse` from `app/models.py`: a single `decision` field. -/
structure ValidatorResponse where
  decision : Decision
deriving DecidableEq, Repr

/-- `AnalyzerResponse` from `app/models.py`. -/
structure AnalyzerResponse where
  decision : String := "accept"
  document_type : String
  summary : String
  important_clauses : List String
deriving DecidableEq, Repr

/-- `RejectionResponse` from `app/models.py`. -/
structure RejectionResponse where
  decision : String := "reject"
  reason : String
deriving DecidableEq, Repr

/-- Python whitespace characters stripped by `str.strip()` (ASCII range:
space, tab, newline, carriage return, vertical tab, form feed). -/
def isPySpace (c : Char) : Bool :=
  c = ' ' || c = '\t' || c = '\n' || c = '\r' || c = Char.ofNat 11 || c = Char.ofNat 12

/-- Python `str.strip()`: drop leading and trailing whitespace. -/
def pyStrip (s : String) : String :=
  String.mk (((s.data.dropWhile isPySpace).reverse.dropWhile isPySpace).reverse)

theorem length_dropWhile_le (p : Char → Bool) (l : List Char) :
    (l.dropWhile p).length ≤ l.length := by
  induction l with
  | nil => simp [List.dropWhile]
  | cons a l ih =>
    simp only [List.dropWhile]
    cases p a with
    | true => exact Nat.le_trans ih (Nat.le_succ _)
    | false => simp

/-- Stripping only removes characters, so the stripped length is bounded by
the original length. -/
theorem pyStrip_length_le (s : String) : (pyStrip s).length ≤ s.length := by
  show (((s.data.dropWhile isPySpace).reverse.dropWhile isPySpace).reverse).length ≤ s.data.length
  rw [List.length_reverse]
  exact Nat.le_trans (length_dropWhile_le _ _)
    (by rw [List.length_reverse]; exact length_dropWhile_le _ _)

/-- Outcome of the structured-output reasoning call made inside
`ContentValidator.is_legal_document` (`self.structured_llm.ainvoke` wrapped
in `asyncio.wait_for`): a valid structured result, a `None` result, a
non-`None` result lacking a `decision` attribute, a timeout, or a raised
exception. -/
inductive ValidatorCallResult where
  | valid (r : ValidatorResponse)
  | nullResult
  | invalidResult
  | timeout
  | exn (msg : String)
deriving DecidableEq, Repr

/-- The failure modes of the validator's reasoning call. -/
def ValidatorCallFailed (c : ValidatorCallResult) : Prop :=
  c = .nullResult ∨ c = .invalidResult ∨ c = .timeout ∨ ∃ m, c = .exn m

/-- `text[:1500] if len(text) > 1500 else text` from `validator.py`
(feeds the classification prompt only). -/
def sampleText (text : String) : String :=
  if text.length > 1500 then text.take 1500 else text

/-- `ContentValidator.is_legal_document` from `app/core/validator.py`.
Returns the `ValidatorResponse` together with the number of reasoning-service
calls issued (0 or 1).  The short-input guard `len(text.strip()) < 100`
returns `reject` before any call; every failure mode of the call maps to
`reject`; a valid structured result is returned as-is.  The function is
total: the Python method catches `asyncio.TimeoutError` and `Exception`. -/
def is_legal_document (call : ValidatorCallResult) (text : String) :
    ValidatorResponse × Nat :=
  if (pyStrip text).length < 100 then
    (⟨Decision.reject⟩, 0)
  else
    match call with
    | .valid r => (r, 1)
    | .nullResult => (⟨Decision.reject⟩, 1)
    | .invalidResult => (⟨Decision.reject⟩, 1)
    | .timeout => (⟨Decision.reject⟩, 1)
    | .exn _ => (⟨Decision.reject⟩, 1)

/-- Outcome of the structured analysis call inside
`DocumentAnalyzer.analyze`: a non-`None` structured result, a `None`
result, a timeout, or a raised exception. -/
inductive AnalyzerCallResult where
  | ok (r : AnalyzerResponse)
  | nullResult
  | timeout
  | exn (msg : String)
deriving DecidableEq, Repr

/-- The failure modes of the analyzer's reasoning call. -/
def AnalyzerCallFailed (c : AnalyzerCallResult) : Prop :=
  c = .nullResult ∨ c = .timeout ∨ ∃ m, c = .exn m

/-- Size-ceiling truncation from `analyzer.py` (feeds the analysis prompt):
documents beyond 8000 characters are cut and a truncation marker appended. -/
def truncateForAnalysis (document_text : String) : String :=
  if document_text.length > 8000 then
    document_text.take 8000 ++ "\n\n[Document truncated for analysis]"
  else document_text

/-- `DocumentAnalyzer.analyze` from `app/core/analyzer.py`.  A successful
structured result is returned as-is; a `None` result, a timeout and a
raised exception each map to a fixed fallback `AnalyzerResponse` with
`document_type = "Unknown"`, a diagnostic summary and three diagnostic
clauses.  Total: the Python method catches `asyncio.TimeoutError` and
`Exception`. -/
def analyze (call : AnalyzerCallResult) (document_text : String) : AnalyzerResponse :=
  match call with
  | .ok r => r
  | .nullResult =>
    { document_type := "Unknown"
      summary := "Analysis could not be completed due to structured output failure."
      important_clauses :=
        ["No structured response received from analyzer",
         "Please try uploading the document again",
         "If issue persists, contact support"] }
  | .timeout =>
    { document_type := "Unknown"
      summary := "Document analysis timed out. Please try with a smaller document."
      important_clauses :=
        ["Analysis timed out due to document complexity or size",
         "Try uploading a smaller document",
         "Consider breaking large documents into sections"] }
  | .exn m =>
    { document_type := "Unknown"
      summary := "Document analysis failed: " ++ m ++
        ". Please try again or consult a legal professional."
      important_clauses :=
        ["Analysis encountered an error",
         "Document may require manual review",
         "Consider consulting a legal professional"] }

/-- C5: whenever the validator's reasoning call times out, yields a `None`
or decision-less result, or raises, `is_legal_document` returns decision
`reject` (fail-closed); it is a total function, so no error propagates. -/
theorem validator_fail_closed (text : String) (c : ValidatorCallResult)
    (h : ValidatorCallFailed c) :
    (is_legal_document c text).1.decision = Decision.reject := by
  rcases h with h | h | h | ⟨m, h⟩ <;> subst h <;>
    simp only [is_legal_document] <;> split <;> rfl

theorem validator_fail_closed_witness :
    ValidatorCallFailed ValidatorCallResult.timeout ∧
      (is_legal_document ValidatorCallResult.timeout "short").1.decision = Decision.reject :=
  ⟨Or.inr (Or.inr (Or.inl rfl)),
   validator_fail_closed "short" ValidatorCallResult.timeout (Or.inr (Or.inr (Or.inl rfl)))⟩

/-- C6: any input text of length below 100 is rejected with zero
reasoning-service calls, and the result does not depend on the oracle
describing the reasoning service's behaviour. -/
theorem validator_short_input_no_call (text : String) (c c2 : ValidatorCallResult)
    (h : text.length < 100) :
    is_legal_document c text = (⟨Decision.reject⟩, 0) ∧
      is_legal_document c text = is_legal_document c2 text := by
  have hs : (pyStrip text).length < 100 :=
    Nat.lt_of_le_of_lt (pyStrip_length_le text) h
  constructor
  · simp [is_legal_document, hs]
  · simp [is_legal_document, hs]

theorem validator_short_input_no_call_witness :
    ("too short".length < 100) ∧
      (is_legal_document ValidatorCallResult.timeout "too short" =
          (⟨Decision.reject⟩, 0) ∧
        is_legal_document ValidatorCallResult.timeout "too short" =
          is_legal_document (ValidatorCallResult.valid ⟨Decision.accept⟩) "too short") :=
  ⟨by decide,
   validator_short_input_no_call "too short" ValidatorCallResult.timeout
     (ValidatorCallResult.valid ⟨Decision.accept⟩) (by decide)⟩

/-- C4: on every failure mode of the underlying reasoning call (null
result, timeout, raised exception), `analyze` returns a well-formed
fallback: `document_type` is the non-empty string `"Unknown"`, the summary
is non-empty, and `important_clauses` has exactly 3 entries. -/
theorem analyzer_fallback_wellformed (c : AnalyzerCallResult) (text : String)
    (h : AnalyzerCallFailed c) :
    (analyze c text).document_type = "Unknown" ∧
      (analyze c text).document_type ≠ "" ∧
      (analyze c text).summary ≠ "" ∧
      (analyze c text).important_clauses.length = 3 := by
  rcases h with h | h | ⟨m, h⟩ <;> subst h
  · exact ⟨rfl, by show "Unknown" ≠ ""; decide,
      by show "Analysis could not be completed due to structured output failure." ≠ ""; decide,
      rfl⟩
  · exact ⟨rfl, by show "Unknown" ≠ ""; decide,
      by show "Document analysis timed out. Please try with a smaller document." ≠ ""; decide,
      rfl⟩
  · refine ⟨rfl, by show "Unknown" ≠ ""; decide, ?_, rfl⟩
    show "Document analysis failed: " ++ m ++
      ". Please try again or consult a legal professional." ≠ ""
    intro hEq
    have hlen := congrArg String.length hEq
    rw [String.length_append, String.length_append] at hlen
    have h0 : ("" : String).length = 0 := rfl
    have hpos : 0 < ("Document analysis failed: " : String).length := by decide
    rw [h0] at hlen
    omega

theorem analyzer_fallback_wellformed_witness :
    AnalyzerCallFailed AnalyzerCallResult.timeout ∧
      ((analyze AnalyzerCallResult.timeout "doc").document_type = "Unknown" ∧
        (analyze AnalyzerCallResult.timeout "doc").document_type ≠ "" ∧
        (analyze AnalyzerCallResult.timeout "doc").summary ≠ "" ∧
        (analyze AnalyzerCallResult.timeout "doc").important_clauses.length = 3) :=
  ⟨Or.inr (Or.inl rfl),
   analyzer_fallback_wellformed AnalyzerCallResult.timeout "doc" (Or.inr (Or.inl rfl))⟩

/-! ### Document Workflow (`app/core/workflow.py`) -/

/-- The `result` field of `DocumentState`:
`Union[AnalyzerResponse, RejectionResponse, None]`, the non-`None` part. -/
inductive DocResult where
  | analysis (r : AnalyzerResponse)
  | rejection (r : RejectionResponse)
deriving DecidableEq, Repr

/-- `DocumentState` from `app/core/workflow.py` (the `file` field is the
opaque upload handle; its effect is captured by the extraction oracle). -/
structure DocumentState where
  document_text : String
  validation_decision : String
  result : Option DocResult
  error : Option String
deriving DecidableEq, Repr

/-- Behaviour of `await self.validator.is_legal_document(...)` as observed
by `_validate_document_node`: a structured result, a `None`/decision-less
result, or a raised exception.  (The real `ContentValidator` always lands
in `ok` — see `is_legal_document` — but the node guards all three.) -/
inductive ValidateNodeOutcome where
  | ok (r : ValidatorResponse)
  | invalid
  | exn (msg : String)
deriving DecidableEq, Repr

/-- Behaviour of `await self.analyzer.analyze(...)` as observed by
`_analyze_document_node`: a result, or a raised exception. -/
inductive AnalyzeNodeOutcome where
  | ok (r : AnalyzerResponse)
  | exn (msg : String)
deriving DecidableEq, Repr

/-- Behaviour of `await self.rejection_llm.ainvoke(...)` inside
`_generate_rejection_reason`: a structured result, `None`, or a raised
exception. -/
inductive RejectCallResult where
  | ok (r : RejectionResponse)
  | nullResult
  | exn (msg : String)
deriving DecidableEq, Repr

/-- Oracle bundle for one `DocumentWorkflow` run: the outcome of each
external call the four nodes make. -/
structure DocEnv where
  extract : Except String String
  validateCall : ValidateNodeOutcome
  analyzeCall : AnalyzeNodeOutcome
  rejectCall : RejectCallResult
deriving Repr

/-- String form of a `Decision`, as stored in `validation_decision`. -/
def decisionStr (d : Decision) : String :=
  match d with
  | .accept => "accept"
  | .reject => "reject"

/-- `_extract_text_node`: on success stores the text; on any raised error
stores the error and a terminal `RejectionResponse`. -/
def extract_text_node (env : DocEnv) (st : DocumentState) : DocumentState :=
  match env.extract with
  | .ok text => { st with document_text := text }
  | .error e =>
    { st with
        error := some ("Text extraction failed: " ++ e)
        result := some (.rejection
          { reason := "Could not extract text from document: " ++ e }) }

/-- `_validate_document_node`: a `None`/decision-less validator result or a
raised exception each populate a terminal rejection; otherwise the decision
string is recorded. -/
def validate_document_node (env : DocEnv) (st : DocumentState) : DocumentState :=
  match env.validateCall with
  | .ok r => { st with validation_decision := decisionStr r.decision }
  | .invalid =>
    { st with result := some (.rejection { reason := "Document validation failed" }) }
  | .exn e =>
    { st with result := some (.rejection { reason := "Validation failed: " ++ e }) }

/-- `_route_after_validation`: an already-populated result forces the
reject edge; otherwise the recorded decision routes (`"reject"` rejects,
anything else accepts). -/
def route_after_validation (st : DocumentState) : String :=
  if st.result ≠ none then "reject"
  else if st.validation_decision = "reject" then "reject"
  else "accept"

/-- `_analyze_document_node`: stores the analyzer's result, or a rejection
if the call raised.  (`DocumentAnalyzer.analyze` itself never raises and
never returns `None` — see `analyze` — so `ok` is the live case.) -/
def analyze_document_node (env : DocEnv) (st : DocumentState) : DocumentState :=
  match env.analyzeCall with
  | .ok r => { st with result := some (.analysis r) }
  | .exn e =>
    { st with result := some (.rejection { reason := "Analysis failed: " ++ e }) }

/-- `_generate_rejection_reason`: returns the structured rejection, a
canned reason on a `None` result, and a second canned reason if the call
raised. -/
def generate_rejection_reason (call : RejectCallResult) (document_text : String) :
    RejectionResponse :=
  match call with
  | .ok r => r
  | .nullResult =>
    { reason := "This document was rejected because it does not appear to be a legal document." }
  | .exn _ =>
    { reason := "Document was rejected during validation process" }

/-- `_generate_rejection_node`: a no-op passthrough when a result is
already populated; otherwise stores a generated rejection reason. -/
def generate_rejection_node (env : DocEnv) (st : DocumentState) : DocumentState :=
  if st.result.isSome then st
  else
    { st with result := some (.rejection
        (generate_rejection_reason env.rejectCall st.document_text)) }

/-- The conditional edge after `validate_document`: route, then run the
chosen terminal node. -/
def post_validation_step (env : DocEnv) (st : DocumentState) : DocumentState :=
  if route_after_validation st = "reject" then generate_rejection_node env st
  else analyze_document_node env st

/-- The initial `DocumentState` built by `process_document`. -/
def initialDocState : DocumentState :=
  { document_text := "", validation_decision := "", result := none, error := none }

/-- The compiled graph of `DocumentWorkflow`:
`START → extract_text → validate_document → {analyze_document | generate_rejection} → END`. -/
def runDocumentWorkflow (env : DocEnv) : DocumentState :=
  post_validation_step env
    (validate_document_node env (extract_text_node env initialDocState))

/-- `DocumentWorkflow.process_document`: run the graph and return the
`result` field of the final state. -/
def process_document (env : DocEnv) : Option DocResult :=
  (runDocumentWorkflow env).result

/-- C3: for every combination of external-call outcomes — extraction,
validation, analysis or rejection generation failing in any way —
`process_document` terminates with exactly one terminal result, an
analysis or a rejection, never `None`; totality of the function models
that no exception escapes. -/
theorem document_workflow_total_terminal (env : DocEnv) :
    ∃ r : DocResult, process_document env = some r := by
  unfold process_document runDocumentWorkflow post_validation_step
    generate_rejection_node analyze_document_node validate_document_node
    extract_text_node route_after_validation initialDocState
  rcases env with ⟨ext, vc, ac, rc⟩
  cases ext <;> cases vc <;> cases ac <;> cases rc <;> simp [decisionStr]
  all_goals first
    | exact ⟨_, rfl⟩
    | (split <;> exact ⟨_, rfl⟩)

/-- C7: if any node before the post-validation routing has already
populated the terminal result, the router takes the reject edge, and
`generate_rejection` passes the state through completely unchanged — so
the final state (and in particular its result) is exactly the state that
entered the router, with no field modified. -/
theorem populated_result_passthrough (env : DocEnv) (st : DocumentState)
    (r : DocResult) (h : st.result = some r) :
    route_after_validation st = "reject" ∧
      generate_rejection_node env st = st ∧
      post_validation_step env st = st ∧
      (post_validation_step env st).result = some r := by
  have hroute : route_after_validation st = "reject" := by
    unfold route_after_validation
    rw [h]
    simp
  have hgen : generate_rejection_node env st = st := by
    unfold generate_rejection_node
    rw [h]
    simp
  have hpost : post_validation_step env st = st := by
    unfold post_validation_step
    rw [hroute, if_pos rfl]
    exact hgen
  exact ⟨hroute, hgen, hpost, by rw [hpost, h]⟩

theorem populated_result_passthrough_witness :
    ({ document_text := "", validation_decision := "",
       result := some (DocResult.rejection { reason := "Could not extract text from document: boom" }),
       error := some "Text extraction failed: boom" : DocumentState }.result =
        some (DocResult.rejection { reason := "Could not extract text from document: boom" })) ∧
      (route_after_validation
          { document_text := "", validation_decision := "",
            result := some (DocResult.rejection { reason := "Could not extract text from document: boom" }),
            error := some "Text extraction failed: boom" } = "reject" ∧
        generate_rejection_node
            ⟨Except.error "boom", ValidateNodeOutcome.ok ⟨Decision.reject⟩,
              AnalyzeNodeOutcome.exn "x", RejectCallResult.nullResult⟩
            { document_text := "", validation_decision := "",
              result := some (DocResult.rejection { reason := "Could not extract text from document: boom" }),
              error := some "Text extraction failed: boom" } =
          { document_text := "", validation_decision := "",
            result := some (DocResult.rejection { reason := "Could not extract text from document: boom" }),
            error := some "Text extraction failed: boom" } ∧
        post_validation_step
            ⟨Except.error "boom", ValidateNodeOutcome.ok ⟨Decision.reject⟩,
              AnalyzeNodeOutcome.exn "x", RejectCallResult.nullResult⟩
            { document_text := "", validation_decision := "",
              result := some (DocResult.rejection { reason := "Could not extract text from document: boom" }),
              error := some "Text extraction failed: boom" } =
          { document_text := "", validation_decision := "",
            result := some (DocResult.rejection { reason := "Could not extract text from document: boom" }),
            error := some "Text extraction failed: boom" } ∧
        (post_validation_step
            ⟨Except.error "boom", ValidateNodeOutcome.ok ⟨Decision.reject⟩,
              AnalyzeNodeOutcome.exn "x", RejectCallResult.nullResult⟩
            { document_text := "", validation_decision := "",
              result := some (DocResult.rejection { reason := "Could not extract text from document: boom" }),
              error := some "Text extraction failed: boom" }).result =
          some (DocResult.rejection { reason := "Could not extract text from document: boom" })) :=
  ⟨rfl,
   populated_result_passthrough
     ⟨Except.error "boom", ValidateNodeOutcome.ok ⟨Decision.reject⟩,
       AnalyzeNodeOutcome.exn "x", RejectCallResult.nullResult⟩
     { document_text := "", validation_decision := "",
       result := some (DocResult.rejection { reason := "Could not extract text from document: boom" }),
       error := some "Text extraction failed: boom" }
     (DocResult.rejection { reason := "Could not extract text from document: boom" }) rfl⟩

/-! ### Session Workflow (`app/core/rag_workflow.py`) -/

/-- Message roles in the conversation history. -/
inductive Role where
  | user
  | assistant
deriving DecidableEq, Repr

/-- One entry of a session's `messages` list. -/
structure ChatMessage where
  role : Role
  content : String
deriving DecidableEq, Repr

/-- A FAISS similarity index, modelled by the chunk contents it indexes
(the embedding vectors themselves are external). -/
structure VectorStore where
  chunks : List String
deriving DecidableEq, Repr

/-- `self.vector_stores : Dict[str, FAISS]`, the process-wide session
store.  Newest binding first; `storeLookup` realises dict lookup with
overwrite-by-shadowing semantics. -/
abbrev Store := List (String × VectorStore)

/-- Dictionary lookup `self.vector_stores.get(session_id)`. -/
def storeLookup : Store → String → Option VectorStore
  | [], _ => none
  | (k, v) :: rest, sid => if k = sid then some v else storeLookup rest sid

/-- `RAGState` from `app/core/rag_workflow.py`. -/
structure RAGState where
  document_content : String
  validation_result : Option ValidatorResponse
  vector_store_id : Option String
  messages : List ChatMessage
  user_message : String
  response : String
  session_id : String
  document_processed : Bool
deriving DecidableEq, Repr

/-- `ChatResponse` from `app/models.py`. -/
structure ChatResponse where
  response : String
  session_id : String
  document_processed : Bool
deriving DecidableEq, Repr

/-- Oracle bundle for one session turn: outcomes of text extraction, the
validator's reasoning call, index construction (splitting + embedding +
FAISS build), chunk retrieval, and the answering reasoning call. -/
structure TurnEnv where
  extractResult : Except String String
  validateCall : ValidatorCallResult
  indexResult : Except String VectorStore
  retrieveResult : Except String (List String)
  llmResult : Except String String
deriving Repr

/-- `_route_decision`: validate when the turn carries document content and
the session is not already processed; otherwise go straight to answering. -/
def route_decision (st : RAGState) : String :=
  if st.document_content ≠ "" ∧ st.document_processed = false then "validate"
  else "answer"

/-- `_validate_document`: absence of content resolves to reject; otherwise
the validator is consulted.  (The `except` branch of the Python node is
dead code: `is_legal_document` is total.) -/
def validate_document_rag (env : TurnEnv) (st : RAGState) : RAGState :=
  if st.document_content = "" then
    { st with validation_result := some ⟨Decision.reject⟩ }
  else
    { st with
        validation_result := some (is_legal_document env.validateCall st.document_content).1 }

/-- `_should_process_document`: process on accept, reject otherwise.  (On
the graph this node always follows `validate_document`, so
`validation_result` is always populated when it runs.) -/
def should_process_document (st : RAGState) : String :=
  match st.validation_result with
  | some r => if r.decision = Decision.accept then "process" else "reject"
  | none => "reject"

/-- `_process_document`: on success the built index is stored under the
session id, `vector_store_id` is set and `document_processed` flips to
true; if splitting/embedding/index construction raised, the state only
gets the fixed processing-error response and the store is untouched. -/
def process_document_node (env : TurnEnv) (store : Store) (st : RAGState) :
    Store × RAGState :=
  match env.indexResult with
  | .ok vs =>
    ((st.session_id, vs) :: store,
      { st with vector_store_id := some st.session_id, document_processed := true })
  | .error _ =>
    (store, { st with response := "Error processing document. Please try again." })

/-- `_answer_question`: with no index for the session, a fixed message;
otherwise retrieval then generation, each failure mode mapping to the
fixed apologetic error string; on success the response is stored and the
(user, assistant) pair is appended to the history. -/
def answer_question_node (env : TurnEnv) (store : Store) (st : RAGState) : RAGState :=
  match storeLookup store st.session_id with
  | none => { st with response := "No document has been processed for this session." }
  | some _ =>
    match env.retrieveResult with
    | .error _ =>
      { st with response :=
          "I encountered an error while processing your legal query. Please try again." }
    | .ok _ =>
      match env.llmResult with
      | .error _ =>
        { st with response :=
            "I encountered an error while processing your legal query. Please try again." }
      | .ok content =>
        { st with
            response := content
            messages := st.messages ++
              [⟨Role.user, st.user_message⟩, ⟨Role.assistant, content⟩] }

/-- `_handle_rejection`: fixed refusal message, processed forced to false. -/
def handle_rejection_node (st : RAGState) : RAGState :=
  { st with
      response := "I can only help with legal documents. Please upload a valid document."
      document_processed := false }

/-- One `ainvoke` of the compiled session graph:
`route_initial → {validate_document, answer_question}`;
`validate_document → {process_document, handle_rejection}`;
`process_document → answer_question` (unconditional edge);
`answer_question → END`; `handle_rejection → END`.
Returns the updated store, the final state, and the number of
index-construction attempts made during the turn. -/
def runRAGWorkflow (env : TurnEnv) (store : Store) (st : RAGState) :
    Store × RAGState × Nat :=
  if route_decision st = "validate" then
    if should_process_document (validate_document_rag env st) = "process" then
      ((process_document_node env store (validate_document_rag env st)).1,
        answer_question_node env
          (process_document_node env store (validate_document_rag env st)).1
          (process_document_node env store (validate_document_rag env st)).2,
        1)
    else (store, handle_rejection_node (validate_document_rag env st), 0)
  else (store, answer_question_node env store st, 0)

/-- The part of a session that langgraph's `MemorySaver` checkpoints and
`RAGWorkflow.chat` reads back: the history and the processed flag. -/
structure SessionRecord where
  messages : List ChatMessage
  document_processed : Bool
deriving DecidableEq, Repr

/-- `RAGWorkflow.chat`: reads the checkpointed session state, extracts the
file only when one is attached and the session is not yet processed (the
re-upload guard logs and ignores the file otherwise), then invokes the
graph.  Extraction errors propagate to the caller (`Except.error`); the
graph itself is total.  Returns the updated store, the checkpointed
record, the `ChatResponse`, and the turn's index-construction count. -/
def chat (env : TurnEnv) (message : String) (session_id : String) (hasFile : Bool)
    (store : Store) (rec : SessionRecord) :
    Except String (Store × SessionRecord × ChatResponse × Nat) :=
  let content? : Except String String :=
    if hasFile && !rec.document_processed then env.extractResult
    else Except.ok ""
  match content? with
  | .error e => .error e
  | .ok content =>
    let st0 : RAGState :=
      { document_content := content
        validation_result := none
        vector_store_id := none
        messages := rec.messages
        user_message := message
        response := ""
        session_id := session_id
        document_processed := rec.document_processed }
    match runRAGWorkflow env store st0 with
    | (store2, stF, k) =>
      .ok (store2, ⟨stF.messages, stF.document_processed⟩,
        ⟨stF.response, session_id, stF.document_processed⟩, k)

/-- One incoming turn for a session: its oracle bundle and request data. -/
structure TurnReq where
  env : TurnEnv
  message : String
  hasFile : Bool

/-- A sequence of turns against one session: a failed turn (extraction
raised, the endpoint answers 500) leaves the session state untouched. -/
def runTurns (sid : String) : List TurnReq → Store → SessionRecord → Store × SessionRecord
  | [], store, rec => (store, rec)
  | t :: ts, store, rec =>
    match chat t.env t.message sid t.hasFile store rec with
    | .error _ => runTurns sid ts store rec
    | .ok (store2, rec2, _, _) => runTurns sid ts store2 rec2

theorem answer_question_processed (env : TurnEnv) (store : Store) (st : RAGState) :
    (answer_question_node env store st).document_processed = st.document_processed := by
  unfold answer_question_node
  rcases storeLookup store st.session_id with _ | _
  · rfl
  · rcases env.retrieveResult with _ | _
    · rfl
    · rcases env.llmResult with _ | _ <;> rfl

/-- An already-processed session runs a turn without touching the store or
calling the indexer, and the processed flag survives. -/
theorem chat_processed_preserved (env : TurnEnv) (message sid : String)
    (hasFile : Bool) (store store2 : Store) (rec rec2 : SessionRecord)
    (resp : ChatResponse) (k : Nat) (h : rec.document_processed = true)
    (heq : chat env message sid hasFile store rec = .ok (store2, rec2, resp, k)) :
    store2 = store ∧ rec2.document_processed = true ∧ k = 0 := by
  unfold chat at heq
  rw [h] at heq
  simp only [Bool.not_true, Bool.and_false, ite_self] at heq
  unfold runRAGWorkflow route_decision at heq
  simp only [h] at heq
  rw [if_neg (by simp)] at heq
  simp only [Except.ok.injEq, Prod.mk.injEq] at heq
  obtain ⟨hs, hr, _, hk⟩ := heq
  refine ⟨hs.symm, ?_, hk.symm⟩
  rw [← hr]
  simp [answer_question_processed, h]

/-- Over any sequence of turns, a session that is already processed keeps
its store entry and its flag. -/
theorem runTurns_processed_preserved (sid : String) :
    ∀ (ts : List TurnReq) (store : Store) (rec : SessionRecord),
      rec.document_processed = true →
        (runTurns sid ts store rec).1 = store ∧
          (runTurns sid ts store rec).2.document_processed = true := by
  intro ts
  induction ts with
  | nil => intro store rec h; exact ⟨rfl, h⟩
  | cons t ts ih =>
    intro store rec h
    unfold runTurns
    cases heq : chat t.env t.message sid t.hasFile store rec with
    | error e => exact ih store rec h
    | ok out =>
      obtain ⟨store2, rec2, resp, k⟩ := out
      obtain ⟨hs, hp, -⟩ :=
        chat_processed_preserved t.env t.message sid t.hasFile store store2 rec rec2
          resp k h heq
      subst hs
      exact ih store2 rec2 hp

/-- A session state with an index present and a processed flag set, used to
exercise the answering node. -/
def stC9 : RAGState :=
  { document_content := ""
    validation_result := none
    vector_store_id := none
    messages := [⟨Role.user, "hi"⟩, ⟨Role.assistant, "hello"⟩]
    user_message := "question"
    response := ""
    session_id := "s9"
    document_processed := true }

/-- A turn that carries a 149-character lease text, an accepting validator,
and a failing index construction. -/
def envC1 : TurnEnv :=
  ⟨Except.ok "ignored", ValidatorCallResult.valid ⟨Decision.accept⟩,
    Except.error "embedding service unavailable", Except.ok [], Except.ok "some answer"⟩

/-- A document long enough to pass the validator's 100-character guard. -/
def longLegalText : String :=
  "This agreement is made between the landlord and the tenant and sets out in detail the obligations of both parties with respect to the leased premises."

/-- The state entering the session graph on a first-upload turn. -/
def stC1 : RAGState :=
  { document_content := longLegalText
    validation_result := none
    vector_store_id := none
    messages := []
    user_message := "What is the notice period?"
    response := ""
    session_id := "sessA"
    document_processed := false }

set_option maxRecDepth 40000 in
/-- C1 counterexample: when index construction raises, `process_document`
does set the fixed processing-error response, but `answer_question` is not
skipped — the unconditional `process_document → answer_question` edge runs
it, it finds no index for the session, and it overwrites the response — so
the caller receives the no-document message, not the processing-error
message. -/
theorem indexing_failure_not_skipped_cex :
    (runRAGWorkflow envC1 [] stC1).2.1.response =
        "No document has been processed for this session." ∧
      (runRAGWorkflow envC1 [] stC1).2.1.response ≠
        "Error processing document. Please try again." ∧
      (process_document_node envC1 [] (validate_document_rag envC1 stC1)).2.response =
        "Error processing document. Please try again." :=
  ⟨by decide, by decide, by decide⟩

/-- C1 amended: if index construction during `process_document` raises, the
fixed processing-error message is set as the turn's response and the store
is untouched, but `answer_question` is not skipped: it runs next on the
unconditional edge and, finding no index for the session, replaces the
response with the fixed no-document message, which is what the caller
receives; the indexer was invoked exactly once. -/
theorem indexing_failure_answer_runs_and_overwrites (env : TurnEnv) (store : Store)
    (st : RAGState) (e : String)
    (hc : st.document_content ≠ "")
    (hp : st.document_processed = false)
    (hacc : (is_legal_document env.validateCall st.document_content).1.decision =
      Decision.accept)
    (hidx : env.indexResult = Except.error e)
    (hlook : storeLookup store st.session_id = none) :
    (process_document_node env store (validate_document_rag env st)).2.response =
        "Error processing document. Please try again." ∧
      (process_document_node env store (validate_document_rag env st)).1 = store ∧
      (runRAGWorkflow env store st).1 = store ∧
      (runRAGWorkflow env store st).2.1.response =
        "No document has been processed for this session." ∧
      (runRAGWorkflow env store st).2.2 = 1 := by
  have hv : validate_document_rag env st =
      { st with
          validation_result := some (is_legal_document env.validateCall st.document_content).1 } := by
    unfold validate_document_rag
    rw [if_neg hc]
  have hsp : should_process_document (validate_document_rag env st) = "process" := by
    rw [hv]
    show (if (is_legal_document env.validateCall st.document_content).1.decision =
      Decision.accept then "process" else "reject") = "process"
    rw [if_pos hacc]
  have hpn : process_document_node env store (validate_document_rag env st) =
      (store, { st with
        validation_result := some (is_legal_document env.validateCall st.document_content).1
        response := "Error processing document. Please try again." }) := by
    unfold process_document_node
    rw [hidx, hv]
  have hroute : route_decision st = "validate" := by
    unfold route_decision
    rw [if_pos ⟨hc, hp⟩]
  have hrun : runRAGWorkflow env store st =
      (store, answer_question_node env store
        { st with
          validation_result := some (is_legal_document env.validateCall st.document_content).1
          response := "Error processing document. Please try again." }, 1) := by
    unfold runRAGWorkflow
    rw [hroute, if_pos rfl, if_pos hsp, hpn]
  have hans : answer_question_node env store
      { st with
        validation_result := some (is_legal_document env.validateCall st.document_content).1
        response := "Error processing document. Please try again." } =
      { st with
        validation_result := some (is_legal_document env.validateCall st.document_content).1
        response := "No document has been processed for this session." } := by
    unfold answer_question_node
    show (match storeLookup store st.session_id with
      | none => _
      | some _ => _) = _
    rw [hlook]
  refine ⟨?_, ?_, ?_, ?_, ?_⟩
  · rw [hpn]
  · rw [hpn]
  · rw [hrun]
  · rw [hrun]
    simp only
    rw [hans]
  · rw [hrun]

set_option maxRecDepth 40000 in
theorem indexing_failure_answer_runs_and_overwrites_witness :
    (stC1.document_content ≠ "" ∧
      stC1.document_processed = false ∧
      (is_legal_document envC1.validateCall stC1.document_content).1.decision =
        Decision.accept ∧
      envC1.indexResult = Except.error "embedding service unavailable" ∧
      storeLookup [] stC1.session_id = none) ∧
    ((process_document_node envC1 [] (validate_document_rag envC1 stC1)).2.response =
        "Error processing document. Please try again." ∧
      (process_document_node envC1 [] (validate_document_rag envC1 stC1)).1 = [] ∧
      (runRAGWorkflow envC1 [] stC1).1 = [] ∧
      (runRAGWorkflow envC1 [] stC1).2.1.response =
        "No document has been processed for this session." ∧
      (runRAGWorkflow envC1 [] stC1).2.2 = 1) :=
  ⟨⟨by decide, rfl, by decide, rfl, rfl⟩,
   indexing_failure_answer_runs_and_overwrites envC1 [] stC1
     "embedding service unavailable" (by decide) rfl (by decide) rfl rfl⟩

/-- C2 amended: for a session already marked processed, any later turn
handled by `RAGWorkflow.chat` (every `/chat` request carrying a non-empty
message) — with or without an attached file — leaves the store (and so
the session's index) unchanged, never invokes the indexer, and keeps the
processed flag true; over any sequence of such turns the flag never
reverts and the store is untouched, so along them the flag flips
false→true at most once (first-write-wins).  The upload-only endpoint
branch (file, no message) is the exception: it bypasses this guard — see
the C2 counterexample. -/
theorem session_first_write_wins (sid : String) (store : Store) (rec : SessionRecord)
    (h : rec.document_processed = true) :
    (∀ env message hasFile store2 rec2 resp k,
        chat env message sid hasFile store rec = .ok (store2, rec2, resp, k) →
          store2 = store ∧ rec2.document_processed = true ∧ k = 0) ∧
      ∀ ts, (runTurns sid ts store rec).1 = store ∧
        (runTurns sid ts store rec).2.document_processed = true := by
  constructor
  · intro env message hasFile store2 rec2 resp k heq
    exact chat_processed_preserved env message sid hasFile store store2 rec rec2 resp k h heq
  · intro ts
    exact runTurns_processed_preserved sid ts store rec h

theorem session_first_write_wins_witness :
    (({ messages := [], document_processed := true } : SessionRecord).document_processed
        = true) ∧
      ((∀ env message hasFile store2 rec2 resp k,
          chat env message "sessB" hasFile [("sessB", ⟨["chunk"]⟩)]
              { messages := [], document_processed := true } =
            .ok (store2, rec2, resp, k) →
            store2 = [("sessB", ⟨["chunk"]⟩)] ∧
              rec2.document_processed = true ∧ k = 0) ∧
        ∀ ts, (runTurns "sessB" ts [("sessB", ⟨["chunk"]⟩)]
              { messages := [], document_processed := true }).1 =
            [("sessB", ⟨["chunk"]⟩)] ∧
          (runTurns "sessB" ts [("sessB", ⟨["chunk"]⟩)]
              { messages := [], document_processed := true }).2.document_processed = true) :=
  ⟨rfl,
   session_first_write_wins "sessB" [("sessB", ⟨["chunk"]⟩)]
     { messages := [], document_processed := true } rfl⟩

/-- C9: with an index present for the session, a retrieval failure or a
generation failure each yield the fixed apologetic error string with the
history untouched; only a successful answer appends exactly one
(user, assistant) pair. -/
theorem answerer_history_atomicity (env : TurnEnv) (store : Store) (st : RAGState)
    (vs : VectorStore) (hvs : storeLookup store st.session_id = some vs) :
    (∀ e, env.retrieveResult = Except.error e →
        (answer_question_node env store st).response =
            "I encountered an error while processing your legal query. Please try again." ∧
          (answer_question_node env store st).messages = st.messages) ∧
      (∀ docs e, env.retrieveResult = Except.ok docs → env.llmResult = Except.error e →
        (answer_question_node env store st).response =
            "I encountered an error while processing your legal query. Please try again." ∧
          (answer_question_node env store st).messages = st.messages) ∧
      (∀ docs content, env.retrieveResult = Except.ok docs →
        env.llmResult = Except.ok content →
        (answer_question_node env store st).response = content ∧
          (answer_question_node env store st).messages =
            st.messages ++ [⟨Role.user, st.user_message⟩, ⟨Role.assistant, content⟩]) := by
  refine ⟨?_, ?_, ?_⟩
  · intro e hr
    unfold answer_question_node
    rw [hvs, hr]
    exact ⟨rfl, rfl⟩
  · intro docs e hr hl
    unfold answer_question_node
    rw [hvs, hr, hl]
    exact ⟨rfl, rfl⟩
  · intro docs content hr hl
    unfold answer_question_node
    rw [hvs, hr, hl]
    exact ⟨rfl, rfl⟩

theorem answerer_history_atomicity_witness :
    (storeLookup [("s9", ⟨["chunk one"]⟩)] "s9" = some ⟨["chunk one"]⟩) ∧
      ((∀ e, (⟨Except.ok "", ValidatorCallResult.nullResult, Except.error "unused",
            Except.ok ["chunk one"], Except.ok "the answer"⟩ : TurnEnv).retrieveResult =
            Except.error e →
          (answer_question_node
              ⟨Except.ok "", ValidatorCallResult.nullResult, Except.error "unused",
                Except.ok ["chunk one"], Except.ok "the answer"⟩
              [("s9", ⟨["chunk one"]⟩)] stC9).response =
              "I encountered an error while processing your legal query. Please try again." ∧
            (answer_question_node
                ⟨Except.ok "", ValidatorCallResult.nullResult, Except.error "unused",
                  Except.ok ["chunk one"], Except.ok "the answer"⟩
                [("s9", ⟨["chunk one"]⟩)] stC9).messages = stC9.messages) ∧
        (∀ docs e, (⟨Except.ok "", ValidatorCallResult.nullResult, Except.error "unused",
            Except.ok ["chunk one"], Except.ok "the answer"⟩ : TurnEnv).retrieveResult =
            Except.ok docs →
          (⟨Except.ok "", ValidatorCallResult.nullResult, Except.error "unused",
            Except.ok ["chunk one"], Except.ok "the answer"⟩ : TurnEnv).llmResult =
            Except.error e →
          (answer_question_node
              ⟨Except.ok "", ValidatorCallResult.nullResult, Except.error "unused",
                Except.ok ["chunk one"], Except.ok "the answer"⟩
              [("s9", ⟨["chunk one"]⟩)] stC9).response =
              "I encountered an error while processing your legal query. Please try again." ∧
            (answer_question_node
                ⟨Except.ok "", ValidatorCallResult.nullResult, Except.error "unused",
                  Except.ok ["chunk one"], Except.ok "the answer"⟩
                [("s9", ⟨["chunk one"]⟩)] stC9).messages = stC9.messages) ∧
        ∀ docs content, (⟨Except.ok "", ValidatorCallResult.nullResult, Except.error "unused",
            Except.ok ["chunk one"], Except.ok "the answer"⟩ : TurnEnv).retrieveResult =
            Except.ok docs →
          (⟨Except.ok "", ValidatorCallResult.nullResult, Except.error "unused",
            Except.ok ["chunk one"], Except.ok "the answer"⟩ : TurnEnv).llmResult =
            Except.ok content →
          (answer_question_node
              ⟨Except.ok "", ValidatorCallResult.nullResult, Except.error "unused",
                Except.ok ["chunk one"], Except.ok "the answer"⟩
              [("s9", ⟨["chunk one"]⟩)] stC9).response = content ∧
            (answer_question_node
                ⟨Except.ok "", ValidatorCallResult.nullResult, Except.error "unused",
                  Except.ok ["chunk one"], Except.ok "the answer"⟩
                [("s9", ⟨["chunk one"]⟩)] stC9).messages =
              stC9.messages ++ [⟨Role.user, stC9.user_message⟩, ⟨Role.assistant, content⟩]) :=
  ⟨rfl,
   answerer_history_atomicity
     ⟨Except.ok "", ValidatorCallResult.nullResult, Except.error "unused",
       Except.ok ["chunk one"], Except.ok "the answer"⟩
     [("s9", ⟨["chunk one"]⟩)] stC9 ⟨["chunk one"]⟩ rfl⟩

/-! ### The `/chat` endpoint (`main.py`, `chat_with_document`) -/

/-- Endpoint outcome: a `ChatResponse`, or an `HTTPException` with a
status code. -/
inductive EndpointOutcome where
  | ok (r : ChatResponse)
  | httpError (code : Nat)
deriving DecidableEq, Repr

/-- Python `str.lower()` (ASCII model). -/
def strToLower (s : String) : String :=
  String.mk (s.data.map Char.toLower)

/-- Python `str.endswith(suffix)`. -/
def strEndsWith (s suffix : String) : Bool :=
  List.isSuffixOf suffix.data s.data

/-- The extension whitelist check from `main.py`:
`any(filename_lower.endswith(ext) for ext in ['.pdf', '.docx'])`. -/
def validExt (fname : String) : Bool :=
  strEndsWith (strToLower fname) ".pdf" || strEndsWith (strToLower fname) ".docx"

/-- `if file and file.filename:` guard combined with the extension check:
true when a named file is present whose extension is not allowed. -/
def fileExtBad (filename : Option String) : Bool :=
  match filename with
  | none => false
  | some f => (f != "") && !(validExt f)

/-- `if file and file.filename:` (a present file with a non-empty name). -/
def hasNamedFile (filename : Option String) : Bool :=
  match filename with
  | none => false
  | some f => f != ""

/-- `not message or not message.strip()`. -/
def emptyMessage (message : Option String) : Bool :=
  match message with
  | none => true
  | some s => (s == "") || (pyStrip s == "")

/-- `if not session_id or session_id == "string": session_id = generate()`;
`freshId` stands for the generated 32-character random id. -/
def resolveSessionId (session_id : Option String) (freshId : String) : String :=
  match session_id with
  | none => freshId
  | some s => if s = "" ∨ s = "string" then freshId else s

/-- The `initial_state` dict built by the upload-only branch of the
endpoint: fresh history and `document_processed = False`, regardless of
the session's prior state. -/
def uploadInitState (content sid : String) : RAGState :=
  { document_content := content
    validation_result := none
    vector_store_id := none
    messages := []
    user_message := ""
    response := ""
    session_id := sid
    document_processed := false }

/-- The upload-only branch: invoke the session graph on the extracted
content, then return an empty response with `document_processed=True`
unconditionally (the graph's own outcome is discarded for the HTTP
response; its final state is what the checkpointer records). -/
def uploadTurn (env : TurnEnv) (sid content : String) (store : Store) :
    EndpointOutcome × Store × SessionRecord × Nat :=
  (.ok ⟨"", sid, true⟩,
    (runRAGWorkflow env store (uploadInitState content sid)).1,
    ⟨(runRAGWorkflow env store (uploadInitState content sid)).2.1.messages,
      (runRAGWorkflow env store (uploadInitState content sid)).2.1.document_processed⟩,
    (runRAGWorkflow env store (uploadInitState content sid)).2.2)

/-- `chat_with_document` from `main.py`: extension check, session-id
resolution, then either the upload-only branch (file, no non-empty
message), a client error (no file, no message), or the conversational
path through `RAGWorkflow.chat`.  Raised `HTTPException`s are returned as
`httpError` (extraction failures in either path surface as the mapped
status code; the exact code is irrelevant here and recorded as 400/500
per branch). -/
def chat_with_document (env : TurnEnv) (freshId : String) (message : Option String)
    (session_id : Option String) (filename : Option String)
    (store : Store) (rec : SessionRecord) :
    EndpointOutcome × Store × SessionRecord × Nat :=
  if fileExtBad filename then (.httpError 400, store, rec, 0)
  else
    if emptyMessage message then
      if hasNamedFile filename then
        match env.extractResult with
        | .error _ => (.httpError 500, store, rec, 0)
        | .ok content =>
          uploadTurn env (resolveSessionId session_id freshId) content store
      else (.httpError 400, store, rec, 0)
    else
      match message with
      | none => (.httpError 400, store, rec, 0)
      | some m =>
        match chat env (pyStrip m) (resolveSessionId session_id freshId)
            filename.isSome store rec with
        | .error _ => (.httpError 500, store, rec, 0)
        | .ok (store2, rec2, resp, k) => (.ok resp, store2, rec2, k)

/-- An upload-only request whose extracted text is 2 characters long, so
the validator's length guard rejects it and nothing is indexed. -/
def envC8 : TurnEnv :=
  ⟨Except.ok "hi", ValidatorCallResult.valid ⟨Decision.accept⟩,
    Except.ok ⟨["x"]⟩, Except.ok [], Except.ok "ans"⟩

/-- C8 counterexample: a `/chat` request with a file and no message that
completes without an HTTP error, yet whose document is rejected by
validation — it is never indexed (the store stays empty, the indexer is
never invoked) while the endpoint still reports an empty response with
`document_processed=true`. -/
theorem upload_only_not_indexed_cex :
    chat_with_document envC8 "fresh" none (some "sess1") (some "doc.pdf") []
        ⟨[], false⟩ =
      (.ok ⟨"", "sess1", true⟩, [], ⟨[], false⟩, 0) ∧
    storeLookup [] "sess1" = none :=
  ⟨by decide, rfl⟩

/-- C8 amended: for every `/chat` request carrying a named, whitelisted
file and no non-empty message, whose extraction succeeds, the endpoint
returns an empty response with `document_processed=true`; the extracted
document goes through the session workflow (which validates it), but when
validation rejects the content the store is unchanged and the indexer is
never invoked — indexing happens only for accepted content. -/
theorem upload_only_returns_processed_true (env : TurnEnv) (freshId : String)
    (message : Option String) (session_id : Option String) (f : String)
    (store : Store) (rec : SessionRecord) (content : String)
    (hmsg : emptyMessage message = true)
    (hfne : f ≠ "")
    (hext : validExt f = true)
    (hex : env.extractResult = Except.ok content) :
    (chat_with_document env freshId message session_id (some f) store rec).1 =
        EndpointOutcome.ok ⟨"", resolveSessionId session_id freshId, true⟩ ∧
      ((is_legal_document env.validateCall content).1.decision = Decision.reject →
        (chat_with_document env freshId message session_id (some f) store rec).2.1 =
            store ∧
          (chat_with_document env freshId message session_id (some f) store rec).2.2.2 =
            0) := by
  have hbad : fileExtBad (some f) = false := by
    show ((f != "") && !(validExt f)) = false
    rw [hext]
    simp
  have hnf : hasNamedFile (some f) = true := by
    show (f != "") = true
    simp [hfne]
  have hcw : chat_with_document env freshId message session_id (some f) store rec =
      uploadTurn env (resolveSessionId session_id freshId) content store := by
    unfold chat_with_document
    rw [hbad, hmsg, hnf, hex]
    simp
  rw [hcw]
  refine ⟨rfl, ?_⟩
  intro hrej
  by_cases hcc : content = ""
  · subst hcc
    have hroute : route_decision (uploadInitState "" (resolveSessionId session_id freshId)) =
        "answer" := by
      unfold route_decision uploadInitState
      simp
    unfold uploadTurn runRAGWorkflow
    rw [hroute]
    exact ⟨rfl, rfl⟩
  · have hv : validate_document_rag env
        (uploadInitState content (resolveSessionId session_id freshId)) =
        { uploadInitState content (resolveSessionId session_id freshId) with
          validation_result := some (is_legal_document env.validateCall content).1 } := by
      unfold validate_document_rag uploadInitState
      rw [if_neg hcc]
    have hsp : should_process_document (validate_document_rag env
        (uploadInitState content (resolveSessionId session_id freshId))) = "reject" := by
      rw [hv]
      show (if (is_legal_document env.validateCall content).1.decision =
        Decision.accept then "process" else "reject") = "reject"
      rw [if_neg (by rw [hrej]; intro hx; cases hx)]
    unfold uploadTurn runRAGWorkflow
    rw [hsp]
    by_cases hr : route_decision
        (uploadInitState content (resolveSessionId session_id freshId)) = "validate"
    · rw [if_pos hr]
      rw [if_neg (by decide)]
      exact ⟨rfl, rfl⟩
    · rw [if_neg hr]
      exact ⟨rfl, rfl⟩

theorem upload_only_returns_processed_true_witness :
    (emptyMessage (some "  ") = true ∧
      ("contract.PDF" : String) ≠ "" ∧
      validExt "contract.PDF" = true ∧
      envC8.extractResult = Except.ok "hi") ∧
    ((chat_with_document envC8 "freshGen" (some "  ") (some "string")
          (some "contract.PDF") [] ⟨[], false⟩).1 =
        EndpointOutcome.ok ⟨"", resolveSessionId (some "string") "freshGen", true⟩ ∧
      ((is_legal_document envC8.validateCall "hi").1.decision = Decision.reject →
        (chat_with_document envC8 "freshGen" (some "  ") (some "string")
            (some "contract.PDF") [] ⟨[], false⟩).2.1 = [] ∧
          (chat_with_document envC8 "freshGen" (some "  ") (some "string")
              (some "contract.PDF") [] ⟨[], false⟩).2.2.2 = 0)) :=
  ⟨⟨by decide, by decide, by decide, rfl⟩,
   upload_only_returns_processed_true envC8 "freshGen" (some "  ") (some "string")
     "contract.PDF" [] ⟨[], false⟩ "hi" (by decide) (by decide) (by decide) rfl⟩

/-- A session store already holding an index for session `sessR`. -/
def processedStore : Store := [("sessR", ⟨["old chunk"]⟩)]

/-- The checkpointed record of that session: already processed. -/
def processedRec : SessionRecord := ⟨[], true⟩

/-- A later upload-only request whose extracted text passes validation and
whose index build succeeds with a different index. -/
def envReupload : TurnEnv :=
  ⟨Except.ok longLegalText, ValidatorCallResult.valid ⟨Decision.accept⟩,
    Except.ok ⟨["replacement chunk"]⟩, Except.ok ["replacement chunk"], Except.ok "ans"⟩

set_option maxRecDepth 40000 in
/-- C2 counterexample: the session `sessR` is already processed and
indexed, yet a later turn of that session carrying a file and no message —
handled by the upload-only branch of the `/chat` endpoint, which hard-codes
`document_processed: False` in the state it feeds the graph and so bypasses
the re-upload guard in `RAGWorkflow.chat` — is not ignored: when the new
document is accepted, the indexer is invoked again (count 1) and the stored
index for the session is replaced; and when the new document is rejected,
`handle_rejection` reverts the session's checkpointed processed flag from
true to false. -/
theorem reupload_guard_bypassed_cex :
    processedRec.document_processed = true ∧
      storeLookup processedStore "sessR" = some ⟨["old chunk"]⟩ ∧
      (chat_with_document envReupload "fresh" none (some "sessR") (some "update.pdf")
          processedStore processedRec).2.2.2 = 1 ∧
      storeLookup (chat_with_document envReupload "fresh" none (some "sessR")
          (some "update.pdf") processedStore processedRec).2.1 "sessR" =
        some ⟨["replacement chunk"]⟩ ∧
      (chat_with_document envC8 "fresh" none (some "sessR") (some "update.pdf")
          processedStore processedRec).2.2.1.document_processed = false :=
  ⟨rfl, rfl, by decide, by decide, by decide⟩

/-! ### Content Indexer chunking (spec §3, used at `rag_workflow.py` line 50) -/

/-- Fuel-driven window generator; the fuel `L - s` always suffices because
each recursive step advances the start by `C - O ≥ 1`. -/
def chunkWindowsAux : Nat → Nat → Nat → Nat → Nat → List (Nat × Nat)
  | 0, _, _, L, s => [(s, L)]
  | fuel + 1, C, O, L, s =>
    if C ≤ O then [(s, L)]
    else if L ≤ s + C then [(s, L)]
    else (s, s + C) :: chunkWindowsAux fuel C O L (s + (C - O))

/-- Modelled from the spec: the Content Indexer's text splitter — the
`RecursiveCharacterTextSplitter(chunk_size=1000, chunk_overlap=200)`
constructed in `RAGWorkflow.__init__` belongs to the external langchain
library and its implementation is not part of this repository — as the
spec's "overlapping fixed-size windows (chunk size ≈1000 units, overlap
≈200 units)": half-open `(start, end)` windows of size `C` over a text of
length `L`, consecutive starts `C - O` apart, the last window ending at
`L`. -/
def chunkWindows (C O L s : Nat) : List (Nat × Nat) :=
  chunkWindowsAux (L - s) C O L s

/-- The chunks themselves: each window cut out of the text. -/
def splitText (C O : Nat) (text : String) : List String :=
  (chunkWindows C O text.length 0).map
    (fun w => String.mk ((text.data.drop w.1).take (w.2 - w.1)))

theorem chunkWindowsAux_head (fuel C O L s : Nat) :
    ∃ e rest, chunkWindowsAux fuel C O L s = (s, e) :: rest := by
  cases fuel with
  | zero => exact ⟨L, [], rfl⟩
  | succ fuel =>
    by_cases h1 : C ≤ O
    · exact ⟨L, [], by simp only [chunkWindowsAux]; rw [if_pos h1]⟩
    · by_cases h2 : L ≤ s + C
      · exact ⟨L, [], by simp only [chunkWindowsAux]; rw [if_neg h1, if_pos h2]⟩
      · exact ⟨s + C, _, by simp only [chunkWindowsAux]; rw [if_neg h1, if_neg h2]⟩

/-- Every position of the text lies inside some window (full coverage, no
gap). -/
theorem chunkWindowsAux_cover (C O : Nat) (hO : O < C) :
    ∀ (fuel s L j : Nat), L - s ≤ fuel → s ≤ j → j < L →
      ∃ w ∈ chunkWindowsAux fuel C O L s, w.1 ≤ j ∧ j < w.2 := by
  intro fuel
  induction fuel with
  | zero =>
    intro s L j hf hj1 hj2
    exact absurd hj2 (by omega)
  | succ fuel ih =>
    intro s L j hf hj1 hj2
    simp only [chunkWindowsAux]
    rw [if_neg (by omega)]
    by_cases h2 : L ≤ s + C
    · rw [if_pos h2]
      exact ⟨(s, L), List.mem_singleton.mpr rfl, hj1, hj2⟩
    · rw [if_neg h2]
      by_cases hjc : j < s + C
      · exact ⟨(s, s + C), List.mem_cons_self _ _, hj1, hjc⟩
      · obtain ⟨w, hw, hw1, hw2⟩ :=
          ih (s + (C - O)) L j (by omega) (by omega) hj2
        exact ⟨w, List.mem_cons_of_mem _ hw, hw1, hw2⟩

/-- Consecutive windows overlap by exactly `O`: each window's start is `O`
units before the previous window's end. -/
theorem chunkWindowsAux_chain (C O : Nat) (hO : O < C) :
    ∀ (fuel s L : Nat),
      List.Chain' (fun a b => b.1 + O = a.2) (chunkWindowsAux fuel C O L s) := by
  intro fuel
  induction fuel with
  | zero => intro s L; exact List.chain'_singleton _
  | succ fuel ih =>
    intro s L
    simp only [chunkWindowsAux]
    rw [if_neg (by omega)]
    by_cases h2 : L ≤ s + C
    · rw [if_pos h2]
      exact List.chain'_singleton _
    · rw [if_neg h2]
      obtain ⟨e, rest, heq⟩ := chunkWindowsAux_head fuel C O L (s + (C - O))
      rw [heq]
      refine List.chain'_cons.mpr ⟨by omega, ?_⟩
      rw [← heq]
      exact ih (s + (C - O)) L

/-- C10: for every text, the windows produced with chunk size `C = 1000`
and overlap `O = 200` cover the full text with no gap, and each window's
start overlaps the previous window by exactly 200 units. -/
theorem chunking_coverage_and_overlap (text : String) :
    (∀ j, j < text.length →
        ∃ w ∈ chunkWindows 1000 200 text.length 0, w.1 ≤ j ∧ j < w.2) ∧
      List.Chain' (fun a b => b.1 + 200 = a.2) (chunkWindows 1000 200 text.length 0) := by
  constructor
  · intro j hj
    exact chunkWindowsAux_cover 1000 200 (by omega) (text.length - 0) 0 text.length j
      (by omega) (Nat.zero_le j) hj
  · exact chunkWindowsAux_chain 1000 200 (by omega) (text.length - 0) 0 text.length

end LexAI
